import Mathlib

/-!
Shallow embedding of the solana-arb opportunity-evaluation and submission
pipeline (src/arb.rs, src/tx.rs, src/main.rs, src/dex.rs), with theorems
settling the behavioural claims about it. External collaborators (the Jupiter
quote client, the chain RPC, the Jito relay) are passed to the embedded
functions as explicit function arguments. Machine integers are modelled as
Nat/Int with explicit wrap-around where the source performs u64/i64
arithmetic; the f64 values the source reads from the environment are modelled
as exact rationals extended with NaN.
-/

/-- Public keys are modelled as natural numbers; the embedded code only ever
compares them for equality. -/
abbrev Pubkey := Nat

/-- Model of the fixed native mint constant spl_token::native_mint::id()
(So11111111111111111111111111111111111111112); only equality tests against it
occur in the source, so its concrete value is irrelevant. -/
def native_mint : Pubkey := 1

/-- Model of the system program id, distinct from the native mint. -/
def system_program_id : Pubkey := 2

/-- Wrap-around of u64 arithmetic. -/
def wrapU64 (n : Nat) : Nat := n % 2 ^ 64

/-- Model of the wrapping Rust cast from u64 to i64. -/
def i64ofU64 (n : Nat) : Int := if n < 2 ^ 63 then (n : Int) else (n : Int) - 2 ^ 64

/-- Wrap-around of i64 arithmetic. -/
def wrapI64 (z : Int) : Int := (z + 2 ^ 63) % 2 ^ 64 - 2 ^ 63

/-- Minimal model of the Rust f64 values this program manipulates: either NaN
or an exact rational. Finite in-range arithmetic is modelled exactly; NaN is
tracked separately because the source compares and multiplies with
environment-parsed factors, and NaN fails every ordered comparison. -/
inductive F64 where
  | nan : F64
  | val : ℚ → F64
deriving DecidableEq

/-- Model of the f64 comparison d <= 0.0 (false on NaN). -/
def F64.le0 : F64 → Bool
  | .nan => false
  | .val q => decide (q ≤ 0)

/-- Model of the f64 comparison d > 1.0 (false on NaN). -/
def F64.gt1 : F64 → Bool
  | .nan => false
  | .val q => decide (1 < q)

/-- Model of f64 multiplication; NaN is absorbing. -/
def F64.mul : F64 → F64 → F64
  | .val a, .val b => .val (a * b)
  | _, _ => .nan

/-- Model of Rust f64::min, which returns the other operand when one side is
NaN. -/
def F64.fmin : F64 → F64 → F64
  | .nan, b => b
  | .val a, .nan => .val a
  | .val a, .val b => .val (min a b)

/-- Truncation of a rational toward zero, matching an in-range Rust
float-to-integer cast. Written with the executable Rat.floor, which agrees
with the mathematical floor on rationals. -/
def ratTrunc (q : ℚ) : Int := if q < 0 then -(Rat.floor (-q)) else Rat.floor q

/-- Model of the saturating Rust cast from f64 to u64: NaN casts to 0,
negative values to 0, values at or above 2^64 to 2^64 - 1, other values
truncate toward zero. -/
def F64.toU64 : F64 → Nat
  | .nan => 0
  | .val q => if q < 0 then 0 else Nat.min (ratTrunc q).toNat (2 ^ 64 - 1)

/-- Model of the saturating Rust cast from f64 to i64: NaN casts to 0, other
values truncate toward zero and saturate at the i64 bounds. -/
def F64.toI64 : F64 → Int
  | .nan => 0
  | .val q =>
      if ratTrunc q < -(2 ^ 63) then -(2 ^ 63)
      else if (2 ^ 63 - 1 : Int) < ratTrunc q then 2 ^ 63 - 1
      else ratTrunc q

/-- Venue bit flags from src/dex.rs. -/
def Dex.RAYDIUM : Nat := 1

/-- Venue bit flag for Meteora DLMM (src/dex.rs). -/
def Dex.METEORA_DLMM : Nat := 2

/-- Venue bit flag for Meteora (src/dex.rs). -/
def Dex.METEORA : Nat := 4

/-- Venue bit flag for Whirlpool (src/dex.rs). -/
def Dex.WHIRLPOOL : Nat := 8

/-- Venue bit flag for Phoenix (src/dex.rs). -/
def Dex.PHOENIX : Nat := 16

/-- The ALL venue set from src/dex.rs (note: it omits METEORA in the
source). -/
def Dex.ALL : Nat :=
  Dex.RAYDIUM ||| Dex.METEORA_DLMM ||| Dex.WHIRLPOOL ||| Dex.PHOENIX

/-- Swap mode of a Jupiter quote (jupiter_swap_api_client QuoteResponse). -/
inductive SwapMode where
  | exactIn
  | exactOut
deriving DecidableEq

/-- Per-hop swap information of a Jupiter route plan step. -/
structure SwapInfo where
  amm_key : Pubkey
  input_mint : Pubkey
  output_mint : Pubkey
  in_amount : Nat
  out_amount : Nat
  fee_amount : Nat
  fee_mint : Pubkey
deriving DecidableEq

/-- One hop of a Jupiter route plan. -/
structure RoutePlanStep where
  swap_info : SwapInfo
  percent : Nat
deriving DecidableEq

/-- Model of the Jupiter QuoteResponse manipulated by src/arb.rs. The
platform fee is modelled as an optional amount and fee-bps pair; label
strings are omitted. -/
structure QuoteResponse where
  input_mint : Pubkey
  in_amount : Nat
  output_mint : Pubkey
  out_amount : Nat
  other_amount_threshold : Nat
  swap_mode : SwapMode
  slippage_bps : Nat
  platform_fee : Option (Nat × Nat)
  price_impact_pct : ℚ
  route_plan : List RoutePlanStep
  context_slot : Option Nat
  time_taken : Option F64
deriving DecidableEq

/-- Model of the Jupiter QuoteRequest fields set by src/arb.rs; the venue
filter carries the Dex bits that the source renders to a string, and the
opaque pass-through quote_args are omitted. -/
structure QuoteRequest where
  amount : Nat
  input_mint : Pubkey
  output_mint : Pubkey
  dexes : Nat
  slippage_bps : Nat
  only_direct_routes : Bool
deriving DecidableEq

/-- Error taxonomy of the pipeline (spec section 7); the source raises anyhow
strings, mapped here onto the taxonomy names. -/
inductive ArbError where
  | unsupportedDirection
  | quoteUnavailable
  | signingFailed
  | submissionFailed
  | confirmationTimeout
  | simulationError
  | compilationFailed
deriving DecidableEq

/-- Clamp of a configured decay factor, from caculate_profit (src/arb.rs
lines 41-52): a factor that compares less-or-equal 0.0 or greater 1.0 is
replaced by 1.0. NaN fails both comparisons and is kept unchanged. -/
def clamp_decay (d : F64) : F64 :=
  if d.le0 || d.gt1 then F64.val 1 else d

/-- Decay application from caculate_profit (src/arb.rs lines 67-69 and
94-97): (amount as f64 * factor) as u64. -/
def decayed_amount (amount : Nat) (factor : F64) : Nat :=
  ((F64.val (amount : ℚ)).mul factor).toU64

/-- Decay transformation of a quote, from caculate_profit (src/arb.rs lines
77-78 and 105-106): the output amount and the minimum-acceptable output are
overwritten with their decayed values. -/
def apply_decay (q : QuoteResponse) (factor : F64) : QuoteResponse :=
  { q with
    out_amount := decayed_amount q.out_amount factor
    other_amount_threshold := decayed_amount q.other_amount_threshold factor }

/-- Native-mint fee accumulation over the buy route plan, from
caculate_profit (src/arb.rs lines 108-113); the u64 addition wraps. -/
def fee_amount_fold (route_plan : List RoutePlanStep) : Nat :=
  route_plan.foldl
    (fun acc r =>
      if r.swap_info.fee_mint = native_mint then wrapU64 (acc + r.swap_info.fee_amount)
      else acc) 0

/-- Mathematical (unwrapped) native-fee total of a route plan, used to state
the profit formula. -/
def native_fee_total (route_plan : List RoutePlanStep) : Nat :=
  route_plan.foldl
    (fun acc r =>
      if r.swap_info.fee_mint = native_mint then acc + r.swap_info.fee_amount else acc) 0

/-- Buy-leg quote request built by caculate_profit (src/arb.rs lines
54-63). -/
def buy_request (amount_in : Nat) (token_in token_out : Pubkey) (dexes : Nat) : QuoteRequest :=
  { amount := amount_in, input_mint := token_in, output_mint := token_out,
    dexes := dexes, slippage_bps := 0, only_direct_routes := true }

/-- Sell-leg quote request built by caculate_profit (src/arb.rs lines
80-89); its amount is the decayed buy output. -/
def sell_request (amount : Nat) (token_in token_out : Pubkey) (dexes : Nat) : QuoteRequest :=
  { amount := amount, input_mint := token_out, output_mint := token_in,
    dexes := dexes, slippage_bps := 0, only_direct_routes := true }

/-- Shallow embedding of caculate_profit (src/arb.rs lines 16-121). The
external Jupiter quote client is the function argument quote; the
environment-parsed decay factors and the partner fee are F64 arguments. The
u64 and i64 arithmetic of the source wraps as in the source. -/
def caculate_profit (quote : QuoteRequest → Except ArbError QuoteResponse)
    (amount_in : Nat) (token_in token_out : Pubkey) (dexes : Nat)
    (buy_decay_env sell_decay_env partner_fee : F64) :
    Except ArbError (Int × QuoteResponse × QuoteResponse) :=
  if token_in ≠ native_mint then .error .unsupportedDirection
  else
    let buy_decay_factor := clamp_decay buy_decay_env
    let sell_decay_factor := clamp_decay sell_decay_env
    match quote (buy_request amount_in token_in token_out dexes) with
    | .error _ => .error .quoteUnavailable
    | .ok quote_buy_response0 =>
      let quote_buy_response := apply_decay quote_buy_response0 buy_decay_factor
      match quote (sell_request quote_buy_response.out_amount token_in token_out dexes) with
      | .error _ => .error .quoteUnavailable
      | .ok quote_sell_response0 =>
        let quote_sell_response := apply_decay quote_sell_response0 sell_decay_factor
        let fee_amount := fee_amount_fold quote_buy_response.route_plan
        let profit := wrapI64 (i64ofU64 quote_sell_response.out_amount - i64ofU64 amount_in)
        let profit := wrapI64 (profit - i64ofU64 fee_amount)
        let profit := wrapI64 (profit - ((F64.val (amount_in : ℚ)).mul partner_fee).toI64)
        .ok (profit, quote_buy_response, quote_sell_response)

/-- Shallow embedding of merge_quotes (src/arb.rs lines 123-148); the u64
addition amount_in + tip_lamports wraps. -/
def merge_quotes (quote_buy_response quote_sell_response : QuoteResponse)
    (amount_in tip_lamports : Nat) : QuoteResponse :=
  let merged_quote := quote_buy_response
  let merged_quote := { merged_quote with output_mint := quote_sell_response.output_mint }
  let merged_quote := { merged_quote with
    out_amount := wrapU64 (amount_in + tip_lamports)
    other_amount_threshold := wrapU64 (amount_in + tip_lamports) }
  let merged_quote := { merged_quote with price_impact_pct := 0 }
  let merged_quote := { merged_quote with
    route_plan := merged_quote.route_plan ++ quote_sell_response.route_plan }
  merged_quote

/-- Bridge between the mathematical floor and the executable Rat.floor. -/
theorem intFloor_eq_ratFloor (q : ℚ) : ⌊q⌋ = q.floor := by
  rw [Rat.floor_def, Rat.floor_def']

/-- Truncation toward zero agrees with the floor on nonnegative rationals. -/
theorem ratTrunc_eq_floor (q : ℚ) (h : 0 ≤ q) : ratTrunc q = ⌊q⌋ := by
  rw [ratTrunc, if_neg (not_lt.mpr h), intFloor_eq_ratFloor]

/-- Truncation toward zero of a nonnegative integer cast is the identity. -/
theorem ratTrunc_natCast (n : Nat) : ratTrunc (n : ℚ) = n := by
  rw [ratTrunc, if_neg (not_lt.mpr (by positivity)), ← intFloor_eq_ratFloor]
  exact_mod_cast Int.floor_natCast n

/-- Evaluation rule for decayed_amount at an exact rational factor whose
product with the amount is a natural number below 2^64. -/
theorem decayed_amount_eq (n : Nat) (q : ℚ) (m : Nat) (h : (n : ℚ) * q = m)
    (hm : m < 2 ^ 64) : decayed_amount n (F64.val q) = m := by
  rw [decayed_amount, F64.mul, F64.toU64, h]
  rw [if_neg (not_lt.mpr (by positivity)), ratTrunc_natCast]
  simp only [Int.toNat_natCast]
  rw [show m.min (2 ^ 64 - 1) = if m ≤ 2 ^ 64 - 1 then m else 2 ^ 64 - 1 from rfl,
    if_pos (by omega)]

/-- Evaluation of decayed_amount at a NaN factor: the cast of NaN is 0. -/
theorem decayed_amount_nan (n : Nat) : decayed_amount n F64.nan = 0 := rfl

/-- Decay at factor exactly 1 is the identity on u64-range amounts. -/
theorem decayed_amount_one (n : Nat) (h : n < 2 ^ 64) :
    decayed_amount n (F64.val 1) = n :=
  decayed_amount_eq n 1 n (by ring) h

/-- Account meta of a low-level instruction. -/
structure AccountMeta where
  pubkey : Pubkey
  is_signer : Bool
  is_writable : Bool
deriving DecidableEq

/-- Low-level instruction model: program id, account metas and a data
payload; the byte-level data encoding is abstracted to a tag-and-payload
list. -/
structure Instruction where
  program_id : Pubkey
  accounts : List AccountMeta
  data : List Nat
deriving DecidableEq

/-- Model of solana system_instruction::transfer: the system program, the
funding and recipient account metas, and the transfer tag 2 with the lamports
payload. -/
def system_transfer (from_pubkey to_pubkey : Pubkey) (lamports : Nat) : Instruction :=
  { program_id := system_program_id
    accounts := [⟨from_pubkey, true, true⟩, ⟨to_pubkey, false, true⟩]
    data := [2, lamports] }

/-- Shallow embedding of get_tip_instruction (src/tx.rs lines 100-111): a
system transfer from the payer to the tip account. -/
def get_tip_instruction (from_pubkey tip_account : Pubkey) (tip_lamports : Nat) : Instruction :=
  system_transfer from_pubkey tip_account tip_lamports

/-- Model of the Jupiter SwapInstructionsResponse consumed by
build_instructions (src/arb.rs). -/
structure SwapInstructionsResponse where
  token_ledger_instruction : Option Instruction
  compute_budget_instructions : List Instruction
  setup_instructions : List Instruction
  swap_instruction : Instruction
  cleanup_instruction : Option Instruction
  other_instructions : List Instruction
  address_lookup_table_addresses : List Pubkey
deriving DecidableEq

/-- Shallow embedding of build_instructions (src/arb.rs lines 199-225),
mirroring the source statement by statement. The token-ledger and
other-instructions stages are commented out in the source and therefore not
appended. -/
def build_instructions (swap_instructions_response : SwapInstructionsResponse)
    (tip_instruction : Instruction) : List Instruction :=
  let ixs : List Instruction := []
  let ixs := ixs ++ swap_instructions_response.compute_budget_instructions
  let ixs := ixs ++ swap_instructions_response.setup_instructions
  let ixs := ixs ++ [swap_instructions_response.swap_instruction]
  let ixs := ixs ++ [tip_instruction]
  let ixs :=
    match swap_instructions_response.cleanup_instruction with
    | some cleanup => ixs ++ [cleanup]
    | none => ixs
  ixs

/-- Stage order as the specification words it (spec sections 3 and 4.3):
compute budget, setup, swap, tip, optional cleanup, then the trailing other
instructions. Written from the spec, for comparison with the
build_instructions embedding. -/
def build_instructions_spec_order (r : SwapInstructionsResponse)
    (tip_instruction : Instruction) : List Instruction :=
  r.compute_budget_instructions ++ r.setup_instructions ++ [r.swap_instruction]
    ++ [tip_instruction] ++ r.cleanup_instruction.toList ++ r.other_instructions

/-- Normal form of the build_instructions embedding, shared by several
theorems below. -/
theorem build_instructions_eq (r : SwapInstructionsResponse) (t : Instruction) :
    build_instructions r t
      = r.compute_budget_instructions ++ r.setup_instructions
        ++ r.swap_instruction :: t :: r.cleanup_instruction.toList := by
  unfold build_instructions
  cases r.cleanup_instruction <;> simp [Option.toList]

/-- Relay bundle identifiers, modelled as naturals. -/
abbrev BundleId := Nat

/-- Transaction identifiers reported by the relay, modelled as naturals. -/
abbrev TxId := Nat

/-- Relay-reported bundle status (spec section 3, BundleStatus): pending or
unknown, landed with transaction ids, or failed. -/
inductive BundleStatus where
  | pending
  | landed (transaction_ids : List TxId)
  | failed
deriving DecidableEq

/-- Modelled from the spec: the confirmation loop of
wait_for_bundle_confirmation lives in src/jito.rs, which is not among the
provided sources (only its callers in src/tx.rs and its module declaration in
src/lib.rs are). Following spec section 4.5: poll the relay at the fixed poll
interval from a captured start; a per-poll transport failure is logged and
treated as not yet resolved, so polling continues; a landed status with a
nonempty transaction id list returns those ids; once elapsed time exceeds the
timeout, fail with ConfirmationTimeout. Time is discrete: after k polls the
elapsed time is k * poll_interval and the k-th poll result is poll k
bundle_id. The fuel argument only forces termination; it is chosen so that it
never runs out before the timeout check fires. -/
def confirm_loop (poll : Nat → BundleId → Except Unit BundleStatus)
    (bundle_id : BundleId) (poll_interval timeout : Nat) :
    Nat → Nat → Except ArbError (List TxId)
  | 0, _ => .error .confirmationTimeout
  | fuel + 1, k =>
    if timeout < k * poll_interval then .error .confirmationTimeout
    else
      match poll k bundle_id with
      | .ok (.landed ids) =>
          if ids.isEmpty then confirm_loop poll bundle_id poll_interval timeout fuel (k + 1)
          else .ok ids
      | _ => confirm_loop poll bundle_id poll_interval timeout fuel (k + 1)

/-- Modelled from the spec: entry point of the confirmation state machine
(spec section 4.5), polling from elapsed time zero. -/
def wait_for_bundle_confirmation (poll : Nat → BundleId → Except Unit BundleStatus)
    (bundle_id : BundleId) (poll_interval timeout : Nat) : Except ArbError (List TxId) :=
  confirm_loop poll bundle_id poll_interval timeout (timeout / poll_interval + 2) 0

/-- Result of a transaction simulation: optional log lines and an optional
execution error, both abstracted to naturals. -/
structure SimulateResult where
  logs : Option (List Nat)
  err : Option Nat
deriving DecidableEq

/-- Shallow embedding of send_versioned_transaction (src/tx.rs lines
113-177). The external collaborators are function arguments: try_new signs
the message, simulate is the RPC dry run used when the TX_SIMULATE flag is
set, send_bundle submits to the relay, and poll is the bundle status endpoint
used by the confirmation loop, which the source calls with a 1000 ms interval
and a 5 s timeout. A versioned transaction is identified with its message,
modelled as a natural. -/
def send_versioned_transaction (tx_simulate : Bool)
    (try_new : Nat → Except ArbError Nat)
    (simulate : Nat → Except ArbError SimulateResult)
    (send_bundle : List Nat → Except ArbError BundleId)
    (poll : Nat → BundleId → Except Unit BundleStatus)
    (message : Nat) (wait_for_confirmation : Bool) : Except ArbError (List TxId) :=
  if tx_simulate then
    match try_new message with
    | .error e => .error e
    | .ok signed_versioned_transaction =>
      match simulate signed_versioned_transaction with
      | .error e => .error e
      | .ok result =>
        match result.err with
        | some _ => .error .simulationError
        | none => .ok []
  else
    match try_new message with
    | .error e => .error e
    | .ok signed_versioned_transaction =>
      match send_bundle [signed_versioned_transaction] with
      | .error e => .error e
      | .ok bundle_id =>
        if wait_for_confirmation then
          wait_for_bundle_confirmation poll bundle_id 1000 5000
        else .ok []

/-- Raw data of a fetched chain account. -/
structure Account where
  data : List Nat
deriving DecidableEq

/-- Resolved address lookup table: its key and its ordered address list. -/
structure AddressLookupTableAccount where
  key : Pubkey
  addresses : List Pubkey
deriving DecidableEq

/-- Lookup-table resolution of create_tx_with_address_table_lookup
(src/tx.rs lines 187-200): zip the requested keys with the fetched optional
accounts and keep, in input order, exactly those whose account is present and
deserializes into a table. -/
def resolve_lookup_tables (address_lookup_table_keys : List Pubkey)
    (raw_accounts : List (Option Account))
    (deserialize : Account → Option (List Pubkey)) : List AddressLookupTableAccount :=
  (address_lookup_table_keys.zip raw_accounts).filterMap fun kv =>
    kv.2.bind fun account =>
      (deserialize account).map fun addresses =>
        AddressLookupTableAccount.mk kv.1 addresses

/-- Shallow embedding of create_tx_with_address_table_lookup (src/tx.rs
lines 179-214). The RPC account fetch, the table deserialization, the
blockhash fetch, the message compilation and the signing step are function
arguments; messages and transactions are abstracted to naturals. -/
def create_tx_with_address_table_lookup
    (get_multiple_accounts : List Pubkey → Except ArbError (List (Option Account)))
    (deserialize : Account → Option (List Pubkey))
    (get_latest_blockhash : Except ArbError Nat)
    (try_compile : List Instruction → List AddressLookupTableAccount → Nat → Except ArbError Nat)
    (try_new : Nat → Except ArbError Nat)
    (instructions : List Instruction)
    (address_lookup_table_keys : List Pubkey) : Except ArbError Nat :=
  match get_multiple_accounts address_lookup_table_keys with
  | .error e => .error e
  | .ok raw_accounts =>
    let address_lookup_table_accounts :=
      resolve_lookup_tables address_lookup_table_keys raw_accounts deserialize
    match get_latest_blockhash with
    | .error e => .error e
    | .ok blockhash =>
      match try_compile instructions address_lookup_table_accounts blockhash with
      | .error e => .error e
      | .ok message =>
        match try_new message with
        | .error e => .error e
        | .ok tx => .ok tx

/-- Identity of the i64 wrap on in-range values. -/
theorem wrapI64_eq_self (z : Int) (h1 : -(2 ^ 63) ≤ z) (h2 : z < 2 ^ 63) :
    wrapI64 z = z := by
  unfold wrapI64
  omega

/-- Identity of the wrapping u64-to-i64 cast below 2^63. -/
theorem i64ofU64_eq_of_lt (n : Nat) (h : n < 2 ^ 63) : i64ofU64 n = n := by
  unfold i64ofU64
  rw [if_pos h]

/-- Nonnegative small inputs make the wrapping u64-to-i64 cast bounded. -/
theorem i64ofU64_nonneg_of_lt (n : Nat) (h : n < 2 ^ 63) : 0 ≤ i64ofU64 n := by
  rw [i64ofU64_eq_of_lt n h]
  positivity

/-- Placeholder quote used by concrete instantiations. -/
def quote_dummy : QuoteResponse :=
  { input_mint := native_mint, in_amount := 0, output_mint := native_mint,
    out_amount := 0, other_amount_threshold := 0, swap_mode := .exactIn,
    slippage_bps := 0, platform_fee := none, price_impact_pct := 0,
    route_plan := [], context_slot := none, time_taken := none }

/-- C2 counterexample: merge_quotes stores the u64-wrapped sum, so at
amount_in = 2^64 - 1 and tip = 1 the merged output amount is 0, not
amount_in + tip as the claim states for every pair of inputs. -/
theorem merge_quotes_overflow_cex :
    (merge_quotes quote_dummy quote_dummy (2 ^ 64 - 1) 1).out_amount = 0 ∧
    (2 ^ 64 - 1) + 1 ≠ 0 := by
  constructor
  · rfl
  · omega

/-- C2 (amended): whenever amount_in + tip_lamports fits in a u64, the merged
quote has the sell output mint, output amount and minimum-acceptable output
equal to amount_in + tip_lamports, zero price impact, the concatenated route
plan, and every other field taken unchanged from the buy quote. -/
theorem merge_quotes_fields (b s : QuoteResponse) (amount_in tip_lamports : Nat)
    (h : amount_in + tip_lamports < 2 ^ 64) :
    (merge_quotes b s amount_in tip_lamports).output_mint = s.output_mint ∧
    (merge_quotes b s amount_in tip_lamports).out_amount = amount_in + tip_lamports ∧
    (merge_quotes b s amount_in tip_lamports).other_amount_threshold
      = amount_in + tip_lamports ∧
    (merge_quotes b s amount_in tip_lamports).price_impact_pct = 0 ∧
    (merge_quotes b s amount_in tip_lamports).route_plan = b.route_plan ++ s.route_plan ∧
    (merge_quotes b s amount_in tip_lamports).input_mint = b.input_mint ∧
    (merge_quotes b s amount_in tip_lamports).in_amount = b.in_amount ∧
    (merge_quotes b s amount_in tip_lamports).swap_mode = b.swap_mode ∧
    (merge_quotes b s amount_in tip_lamports).slippage_bps = b.slippage_bps ∧
    (merge_quotes b s amount_in tip_lamports).platform_fee = b.platform_fee ∧
    (merge_quotes b s amount_in tip_lamports).context_slot = b.context_slot ∧
    (merge_quotes b s amount_in tip_lamports).time_taken = b.time_taken := by
  have h2 : (amount_in + tip_lamports) % 2 ^ 64 = amount_in + tip_lamports :=
    Nat.mod_eq_of_lt h
  simp [merge_quotes, wrapU64, h2]
  omega

/-- C2 witness: evaluation of the amended statement at concrete inputs. -/
theorem merge_quotes_fields_witness :
    (merge_quotes quote_dummy quote_dummy 100 5).out_amount = 100 + 5 ∧
    (merge_quotes quote_dummy quote_dummy 100 5).price_impact_pct = 0 :=
  ⟨(merge_quotes_fields quote_dummy quote_dummy 100 5 (by norm_num)).2.1,
   (merge_quotes_fields quote_dummy quote_dummy 100 5 (by norm_num)).2.2.2.1⟩

/-- Instruction literal used by concrete instantiations. -/
def ix (n : Nat) : Instruction := { program_id := n, accounts := [], data := [] }

/-- Sample swap-instructions response with every optional stage present. -/
def r_example : SwapInstructionsResponse :=
  { token_ledger_instruction := none,
    compute_budget_instructions := [ix 10],
    setup_instructions := [ix 11, ix 12],
    swap_instruction := ix 13,
    cleanup_instruction := some (ix 14),
    other_instructions := [ix 15],
    address_lookup_table_addresses := [] }

/-- C3: build_instructions always places the tip instruction immediately
after the swap instruction; when a cleanup instruction is present it comes
directly after the tip, and when it is absent the list ends with the tip. -/
theorem build_instructions_tip_follows_swap (r : SwapInstructionsResponse)
    (t : Instruction) :
    ∃ k, (build_instructions r t)[k]? = some r.swap_instruction ∧
      (build_instructions r t)[k + 1]? = some t ∧
      (∀ c, r.cleanup_instruction = some c → (build_instructions r t)[k + 2]? = some c) ∧
      (r.cleanup_instruction = none → (build_instructions r t).length = k + 2) := by
  have he : build_instructions r t
      = (r.compute_budget_instructions ++ r.setup_instructions)
        ++ r.swap_instruction :: t :: r.cleanup_instruction.toList := by
    rw [build_instructions_eq, List.append_assoc]
  refine ⟨(r.compute_budget_instructions ++ r.setup_instructions).length, ?_, ?_, ?_, ?_⟩
  · rw [he, List.getElem?_append_right (le_refl _)]
    simp
  · rw [he, List.getElem?_append_right (by omega)]
    simp
  · intro c hc
    rw [he, List.getElem?_append_right (by omega), hc]
    simp
  · intro hc
    rw [he, hc]
    simp [Option.toList]
    omega

/-- C3 witness: the swap, tip and cleanup instructions appear consecutively
in the assembled list for a concrete response. -/
theorem build_instructions_tip_follows_swap_witness :
    ∃ k, (build_instructions r_example (ix 20))[k]? = some (ix 13) ∧
      (build_instructions r_example (ix 20))[k + 1]? = some (ix 20) ∧
      (build_instructions r_example (ix 20))[k + 2]? = some (ix 14) := by
  obtain ⟨k, h1, h2, h3, _⟩ := build_instructions_tip_follows_swap r_example (ix 20)
  exact ⟨k, h1, h2, h3 (ix 14) rfl⟩

/-- C9 counterexample: with a nonempty trailing other-instructions stage the
assembled list differs from the spec stage order, because build_instructions
never appends the other instructions (the corresponding source line is
commented out). -/
theorem build_instructions_drops_other_cex :
    build_instructions r_example (ix 20) ≠ build_instructions_spec_order r_example (ix 20) := by
  decide

/-- C9 (amended): the assembled list is exactly compute budget, setup, swap,
tip, then the optional cleanup; the trailing other instructions are dropped,
not appended. -/
theorem build_instructions_stage_order (r : SwapInstructionsResponse) (t : Instruction) :
    build_instructions r t
      = r.compute_budget_instructions ++ r.setup_instructions
        ++ r.swap_instruction :: t :: r.cleanup_instruction.toList :=
  build_instructions_eq r t

/-- C6: when the input token differs from the native mint, caculate_profit
fails with the unsupported-direction error for every possible quote client,
so no quote call can influence (or be required for) the outcome. -/
theorem caculate_profit_non_native_input
    (quote : QuoteRequest → Except ArbError QuoteResponse)
    (amount_in : Nat) (token_in token_out : Pubkey) (dexes : Nat)
    (buy_decay_env sell_decay_env partner_fee : F64)
    (h : token_in ≠ native_mint) :
    caculate_profit quote amount_in token_in token_out dexes
        buy_decay_env sell_decay_env partner_fee
      = .error .unsupportedDirection ∧
    ∀ quote2, caculate_profit quote amount_in token_in token_out dexes
        buy_decay_env sell_decay_env partner_fee
      = caculate_profit quote2 amount_in token_in token_out dexes
        buy_decay_env sell_decay_env partner_fee := by
  have he : ∀ q : QuoteRequest → Except ArbError QuoteResponse,
      caculate_profit q amount_in token_in token_out dexes
        buy_decay_env sell_decay_env partner_fee = .error .unsupportedDirection := by
    intro q
    unfold caculate_profit
    rw [if_pos h]
  exact ⟨he quote, fun quote2 => (he quote).trans (he quote2).symm⟩

/-- C6 witness: a non-native input mint is rejected at a concrete input. -/
theorem caculate_profit_non_native_input_witness :
    caculate_profit (fun _ => .error .quoteUnavailable) 5 2 3 Dex.ALL
        F64.nan F64.nan F64.nan
      = .error .unsupportedDirection :=
  (caculate_profit_non_native_input (fun _ => .error .quoteUnavailable) 5 2 3 Dex.ALL
    F64.nan F64.nan F64.nan (by decide)).1

/-- C5: with wait_for_confirmation set to false, once the single bundle
submission succeeds the function returns the empty result, for every possible
poll endpoint, so the confirmation poll path is never invoked. -/
theorem send_versioned_transaction_no_wait
    (try_new : Nat → Except ArbError Nat)
    (simulate : Nat → Except ArbError SimulateResult)
    (send_bundle : List Nat → Except ArbError BundleId)
    (poll : Nat → BundleId → Except Unit BundleStatus)
    (message stx bundle_id : Nat)
    (hsign : try_new message = .ok stx)
    (hsend : send_bundle [stx] = .ok bundle_id) :
    send_versioned_transaction false try_new simulate send_bundle poll message false
      = .ok [] := by
  simp [send_versioned_transaction, hsign, hsend]

/-- C5 witness: evaluation at a concrete signer and relay. -/
theorem send_versioned_transaction_no_wait_witness :
    send_versioned_transaction false (fun m => .ok m) (fun _ => .ok ⟨none, none⟩)
        (fun _ => .ok 7) (fun _ _ => .ok .pending) 3 false
      = .ok [] :=
  send_versioned_transaction_no_wait (fun m => .ok m) (fun _ => .ok ⟨none, none⟩)
    (fun _ => .ok 7) (fun _ _ => .ok .pending) 3 3 7 rfl rfl

/-- C7 counterexample: the decay factor NaN lies outside (0,1] yet passes the
clamp unchanged, because both clamp comparisons are false on NaN; the decayed
amounts then collapse to 0 rather than staying at the original values that an
effective factor of 1.0 would give. -/
theorem clamp_decay_nan_cex :
    clamp_decay F64.nan ≠ F64.val 1 ∧
    decayed_amount 5 (clamp_decay F64.nan) = 0 := by
  constructor
  · decide
  · rfl

/-- C7 (amended): for every non-NaN decay factor outside (0,1] the effective
factor is exactly 1.0, and decay at factor 1.0 truncates amount * 1 back to
the original amount, leaving both decayed fields of a quote unchanged. -/
theorem clamp_decay_outside_interval (q : ℚ) (h : q ≤ 0 ∨ 1 < q)
    (qr : QuoteResponse)
    (h1 : qr.out_amount < 2 ^ 64) (h2 : qr.other_amount_threshold < 2 ^ 64) :
    clamp_decay (F64.val q) = F64.val 1 ∧
    (∀ amount : Nat, amount < 2 ^ 64 →
      decayed_amount amount (clamp_decay (F64.val q)) = amount) ∧
    apply_decay qr (clamp_decay (F64.val q)) = qr := by
  have hc : clamp_decay (F64.val q) = F64.val 1 := by
    rcases h with h | h <;> simp [clamp_decay, F64.le0, F64.gt1, h]
  refine ⟨hc, fun amount ha => ?_, ?_⟩
  · rw [hc]
    exact decayed_amount_one amount ha
  · rw [hc]
    unfold apply_decay
    rw [decayed_amount_one _ h1, decayed_amount_one _ h2]

/-- C7 witness: a factor of 2 is clamped to 1.0 and decay keeps a concrete
amount unchanged. -/
theorem clamp_decay_outside_interval_witness :
    clamp_decay (F64.val 2) = F64.val 1 ∧
    decayed_amount 7 (clamp_decay (F64.val 2)) = 7 := by
  obtain ⟨hc, hd, _⟩ := clamp_decay_outside_interval 2 (Or.inr (by norm_num))
    quote_dummy (by decide) (by decide)
  exact ⟨hc, hd 7 (by norm_num)⟩

/-- Exhaustion of the confirmation loop: when no poll ever reports a landed
status, the loop runs to the timeout check and fails with the
confirmation-timeout error, provided the fuel covers the remaining polls. -/
theorem confirm_loop_no_landed (poll : Nat → BundleId → Except Unit BundleStatus)
    (bundle_id : BundleId) (poll_interval timeout : Nat)
    (hnoland : ∀ k ids, poll k bundle_id ≠ .ok (.landed ids)) :
    ∀ (fuel k : Nat), timeout < (k + fuel) * poll_interval →
      confirm_loop poll bundle_id poll_interval timeout fuel k
        = .error .confirmationTimeout := by
  intro fuel
  induction fuel with
  | zero => intro k hk; rfl
  | succ fuel ih =>
    intro k hk
    rw [confirm_loop]
    by_cases hlt : timeout < k * poll_interval
    · rw [if_pos hlt]
    · rw [if_neg hlt]
      have hnext : timeout < (k + 1 + fuel) * poll_interval := by
        have : k + 1 + fuel = k + (fuel + 1) := by omega
        rw [this]
        exact hk
      cases hp : poll k bundle_id with
      | error e => exact ih (k + 1) hnext
      | ok status =>
        cases status with
        | pending => exact ih (k + 1) hnext
        | failed => exact ih (k + 1) hnext
        | landed ids => exact absurd hp (hnoland k ids)

/-- C4 (spec-modelled): when the poll endpoint never reports a landed status,
wait_for_bundle_confirmation fails with ConfirmationTimeout, and it does not
fail earlier: at every iteration whose elapsed time k * poll_interval is
still within the timeout the loop polls and simply continues to the next
iteration, in particular on per-poll transport errors. -/
theorem wait_for_bundle_confirmation_times_out
    (poll : Nat → BundleId → Except Unit BundleStatus) (bundle_id : BundleId)
    (poll_interval timeout : Nat) (hpos : 0 < poll_interval)
    (hnoland : ∀ k ids, poll k bundle_id ≠ .ok (.landed ids)) :
    wait_for_bundle_confirmation poll bundle_id poll_interval timeout
      = .error .confirmationTimeout ∧
    ∀ fuel k, k * poll_interval ≤ timeout →
      confirm_loop poll bundle_id poll_interval timeout (fuel + 1) k
        = confirm_loop poll bundle_id poll_interval timeout fuel (k + 1) := by
  constructor
  · have h1 := Nat.div_add_mod timeout poll_interval
    have h2 := Nat.mod_lt timeout hpos
    have hbound : timeout < (0 + (timeout / poll_interval + 2)) * poll_interval := by
      have h3 : (0 + (timeout / poll_interval + 2)) * poll_interval
          = poll_interval * (timeout / poll_interval) + 2 * poll_interval := by ring
      rw [h3]
      generalize hA : poll_interval * (timeout / poll_interval) = A at h1 ⊢
      generalize hR : timeout % poll_interval = R at h1 h2
      omega
    exact confirm_loop_no_landed poll bundle_id poll_interval timeout hnoland _ 0 hbound
  · intro fuel k hk
    rw [confirm_loop, if_neg (not_lt.mpr hk)]
    cases hp : poll k bundle_id with
    | error e => rfl
    | ok status =>
      cases status with
      | pending => rfl
      | failed => rfl
      | landed ids => exact absurd hp (hnoland k ids)

/-- C4 witness: a poll endpoint that always fails at the transport level
drives the confirmation to the timeout error. -/
theorem wait_for_bundle_confirmation_times_out_witness :
    wait_for_bundle_confirmation (fun _ _ => .error ()) 9 1000 10000
      = .error .confirmationTimeout :=
  (wait_for_bundle_confirmation_times_out (fun _ _ => .error ()) 9 1000 10000
    (by norm_num) (fun k ids h => Except.noConfusion h)).1

/-- Keys of the resolved lookup tables are exactly the requested keys whose
backing account is present and decodable, in input order. -/
theorem resolve_keys_eq (deserialize : Account → Option (List Pubkey)) :
    ∀ (keys : List Pubkey) (raw : List (Option Account)),
    (resolve_lookup_tables keys raw deserialize).map AddressLookupTableAccount.key
      = ((keys.zip raw).filter fun kv => (kv.2.bind deserialize).isSome).map Prod.fst
  | [], raw => by simp [resolve_lookup_tables]
  | k :: ks, [] => by simp [resolve_lookup_tables]
  | k :: ks, r :: rs => by
    have ih := resolve_keys_eq deserialize ks rs
    cases r with
    | none => simpa [resolve_lookup_tables] using ih
    | some a =>
      cases hda : deserialize a with
      | none => simpa [resolve_lookup_tables, hda] using ih
      | some addrs => simpa [resolve_lookup_tables, hda] using ih

/-- Dropping one request whose backing account is missing or undecodable
leaves the resolved table list unchanged. -/
theorem resolve_skip (deserialize : Account → Option (List Pubkey)) :
    ∀ (i : Nat) (keys : List Pubkey) (raw : List (Option Account)),
    i < keys.length → i < raw.length →
    (∀ a, raw[i]? = some (some a) → deserialize a = none) →
    resolve_lookup_tables keys raw deserialize
      = resolve_lookup_tables (keys.eraseIdx i) (raw.eraseIdx i) deserialize
  | 0, k :: ks, r :: rs, _, _, hbad => by
    cases r with
    | none => simp [resolve_lookup_tables]
    | some a =>
      have hda : deserialize a = none := hbad a (by simp)
      simp [resolve_lookup_tables, hda]
  | i + 1, k :: ks, r :: rs, h1, h2, hbad => by
    have ih := resolve_skip deserialize i ks rs (by simpa using h1) (by simpa using h2)
      (fun a ha => hbad a (by simpa using ha))
    cases r with
    | none => simpa [resolve_lookup_tables] using ih
    | some a =>
      cases hda : deserialize a with
      | none => simpa [resolve_lookup_tables, hda] using ih
      | some addrs => simpa [resolve_lookup_tables, hda] using ih

/-- C10: lookup-table resolution keeps exactly the present-and-decodable
requests in input order, and a missing or undecodable backing account never
makes compilation fail by itself: the whole transaction construction behaves
exactly as if that table had not been requested, continuing with the
remaining tables. -/
theorem create_tx_skips_bad_lookup_tables
    (get1 get2 : List Pubkey → Except ArbError (List (Option Account)))
    (deserialize : Account → Option (List Pubkey))
    (get_latest_blockhash : Except ArbError Nat)
    (try_compile : List Instruction → List AddressLookupTableAccount → Nat → Except ArbError Nat)
    (try_new : Nat → Except ArbError Nat)
    (instructions : List Instruction)
    (keys : List Pubkey) (raw : List (Option Account)) (i : Nat)
    (hik : i < keys.length) (hir : i < raw.length)
    (hbad : ∀ a, raw[i]? = some (some a) → deserialize a = none)
    (hg1 : get1 keys = .ok raw)
    (hg2 : get2 (keys.eraseIdx i) = .ok (raw.eraseIdx i)) :
    ((resolve_lookup_tables keys raw deserialize).map AddressLookupTableAccount.key
      = ((keys.zip raw).filter fun kv => (kv.2.bind deserialize).isSome).map Prod.fst) ∧
    resolve_lookup_tables keys raw deserialize
      = resolve_lookup_tables (keys.eraseIdx i) (raw.eraseIdx i) deserialize ∧
    create_tx_with_address_table_lookup get1 deserialize get_latest_blockhash try_compile
        try_new instructions keys
      = create_tx_with_address_table_lookup get2 deserialize get_latest_blockhash try_compile
        try_new instructions (keys.eraseIdx i) := by
  have hskip := resolve_skip deserialize i keys raw hik hir hbad
  refine ⟨resolve_keys_eq deserialize keys raw, hskip, ?_⟩
  simp only [create_tx_with_address_table_lookup, hg1, hg2, hskip]

/-- Sample deserializer for concrete instantiations: empty account data is
undecodable, anything else decodes to a one-entry table. -/
def deser_example : Account → Option (List Pubkey) :=
  fun a => if a.data = [] then none else some [9]

/-- C10 witness: a request whose backing account is absent is skipped and
resolution continues with the remaining table. -/
theorem create_tx_skips_bad_lookup_tables_witness :
    resolve_lookup_tables [3, 4] [some ⟨[5]⟩, none] deser_example
      = resolve_lookup_tables [3] [some ⟨[5]⟩] deser_example :=
  (create_tx_skips_bad_lookup_tables (fun _ => .ok [some ⟨[5]⟩, none])
    (fun _ => .ok [some ⟨[5]⟩]) deser_example (.ok 0) (fun _ _ _ => .ok 0)
    (fun m => .ok m) [] [3, 4] [some ⟨[5]⟩, none] 1
    (by norm_num) (by norm_num) (by intro a ha; simp at ha) rfl rfl).2.1

/-- Tip-paying instruction predicate: a system-program transfer whose
recipient account meta is the tip account, identified by the transfer data
tag 2. -/
def is_tip_transfer (tip_account : Pubkey) (ins : Instruction) : Bool :=
  ins.program_id == system_program_id &&
    (match ins.accounts with
     | [_, to_meta] => to_meta.pubkey == tip_account
     | _ => false) &&
    ins.data.head? == some 2

/-- Tip lamports computed by new_signed_and_send (src/tx.rs lines 54-56):
the fetched tip value is capped by f64::min at 0.1 and converted with
ui_amount_to_amount, that is, (tip * 10^9) as u64. -/
def nss_tip_lamports (tip_value : F64) : Nat :=
  ((tip_value.fmin (F64.val (1 / 10))).mul (F64.val (10 ^ 9))).toU64

/-- Bundle built by new_signed_and_send (src/tx.rs lines 67-74): the caller
transaction followed by one tip transfer transaction; a transaction is
modelled as its instruction list. -/
def nss_bundle (instructions : List Instruction) (keypair_pubkey tip_account : Pubkey)
    (tip_value : F64) : List (List Instruction) :=
  [instructions,
   [system_transfer keypair_pubkey tip_account (nss_tip_lamports tip_value)]]

/-- Tip sizing on the arbitrage path (src/main.rs line 243): profit as u64 / 2,
with the wrapping i64-to-u64 cast. -/
def arb_tip_lamports (profit : Int) : Nat :=
  (if 0 ≤ profit then profit.toNat else (2 ^ 64 + profit).toNat) / 2

/-- Profit gate of run_arbitrage (src/main.rs line 232): the submission path
is taken unless profit < min_profit_lamports as i64. -/
def arb_proceeds (profit : Int) (min_profit_lamports : Nat) : Bool :=
  !(decide (profit < i64ofU64 min_profit_lamports))

/-- Bundle on the arbitrage path (src/main.rs lines 242-295 together with
src/tx.rs lines 144-148): one transaction whose instruction list comes from
build_instructions with the tip instruction sized at half the profit. -/
def arb_bundle (resp : SwapInstructionsResponse) (payer_pubkey tip_account : Pubkey)
    (profit : Int) : List (List Instruction) :=
  [build_instructions resp
    (get_tip_instruction payer_pubkey tip_account (arb_tip_lamports profit))]

/-- Count of tip-paying instructions across a bundle. -/
def bundle_tip_count (tip_account : Pubkey) (bundle : List (List Instruction)) : Nat :=
  (bundle.map fun tx => tx.countP (is_tip_transfer tip_account)).sum

/-- The structurally appended tip transfer satisfies the tip predicate. -/
theorem is_tip_transfer_system_transfer (p tip_account : Pubkey) (lamports : Nat) :
    is_tip_transfer tip_account (system_transfer p tip_account lamports) = true := by
  simp [is_tip_transfer, system_transfer]

/-- Bound of the f64-to-u64 cast by any rational upper bound of the value. -/
theorem toU64_le_of_le (q : ℚ) (m : Nat) (h : q ≤ m) : (F64.val q).toU64 ≤ m := by
  simp only [F64.toU64]
  by_cases hq : q < 0
  · rw [if_pos hq]
    exact Nat.zero_le m
  · rw [if_neg hq]
    have h0 : (0 : ℚ) ≤ q := not_lt.mp hq
    have h1 : ratTrunc q = ⌊q⌋ := ratTrunc_eq_floor q h0
    have h2 : ⌊q⌋ ≤ (m : Int) := by
      calc ⌊q⌋ ≤ ⌊(m : ℚ)⌋ := Int.floor_le_floor h
        _ = m := by exact_mod_cast Int.floor_natCast m
    have h3 : (ratTrunc q).toNat ≤ m := by omega
    calc Nat.min (ratTrunc q).toNat (2 ^ 64 - 1) ≤ (ratTrunc q).toNat := Nat.min_le_left _ _
      _ ≤ m := h3

/-- Count of a predicate over the assembled instruction list: the count over
the response stages plus the contribution of the tip instruction. -/
theorem countP_build_instructions (resp : SwapInstructionsResponse) (t : Instruction)
    (p : Instruction → Bool) :
    (build_instructions resp t).countP p
      = (resp.compute_budget_instructions ++ resp.setup_instructions
          ++ resp.swap_instruction :: resp.cleanup_instruction.toList).countP p
        + (if p t then 1 else 0) := by
  rw [build_instructions_eq]
  simp only [List.countP_append, List.countP_cons]
  by_cases hp : p t <;> by_cases hs : p resp.swap_instruction <;> simp [hp, hs] <;> omega

/-- C8 counterexample: with the minimum-profit threshold configured to 0 and
a computed profit of 1, the arbitrage path proceeds and submits a bundle
whose tip transfer pays 0 lamports, violating the strictly-positive tip
invariant; and a profit of 400000002 yields a tip of 200000001 lamports,
above the only configured ceiling in the program (0.1 sol, the
new_signed_and_send cap of 100000000 lamports). -/
theorem arb_tip_bounds_cex :
    arb_proceeds 1 0 = true ∧ arb_tip_lamports 1 = 0 ∧
    100000000 < arb_tip_lamports 400000002 := by
  refine ⟨by decide, by decide, by decide⟩

/-- C8 (amended): each submission path structurally appends exactly one tip
transfer, so whenever the externally supplied instructions contain no
transfer to the tip account the bundle carries exactly one tip-paying
instruction; on the new_signed_and_send path the tip lamports are capped at
100000000 (0.1 sol) for every fetched tip value; on the arbitrage path the
tip is half the profit, strictly positive whenever the profit is at least 2,
and subject to no ceiling. -/
theorem bundle_tip_invariant (payer tip_account : Pubkey) :
    (∀ v : F64, nss_tip_lamports v ≤ 100000000) ∧
    (∀ (instructions : List Instruction) (v : F64),
      instructions.countP (is_tip_transfer tip_account) = 0 →
      bundle_tip_count tip_account (nss_bundle instructions payer tip_account v) = 1) ∧
    (∀ (resp : SwapInstructionsResponse) (profit : Int),
      (resp.compute_budget_instructions ++ resp.setup_instructions
        ++ resp.swap_instruction :: resp.cleanup_instruction.toList).countP
          (is_tip_transfer tip_account) = 0 →
      bundle_tip_count tip_account (arb_bundle resp payer tip_account profit) = 1) ∧
    (∀ profit : Int, 2 ≤ profit → 0 < arb_tip_lamports profit) := by
  refine ⟨?_, ?_, ?_, ?_⟩
  · intro v
    cases v with
    | nan =>
      apply toU64_le_of_le
      norm_num [F64.fmin, F64.mul]
    | val a =>
      show ((F64.val (min a (1 / 10))).mul (F64.val (10 ^ 9))).toU64 ≤ 100000000
      rw [F64.mul]
      apply toU64_le_of_le
      have h1 : min a (1 / 10) ≤ (1 : ℚ) / 10 := min_le_right a _
      have h2 : min a (1 / 10) * 10 ^ 9 ≤ (1 / 10 : ℚ) * 10 ^ 9 := by
        apply mul_le_mul_of_nonneg_right h1
        positivity
      calc min a (1 / 10) * 10 ^ 9 ≤ (1 / 10 : ℚ) * 10 ^ 9 := h2
        _ = ((100000000 : Nat) : ℚ) := by norm_num
  · intro instructions v h0
    simp [bundle_tip_count, nss_bundle, List.countP_cons,
      is_tip_transfer_system_transfer, h0]
  · intro resp profit h0
    simp only [bundle_tip_count, arb_bundle, List.map_cons, List.map_nil,
      List.sum_cons, List.sum_nil, Nat.add_zero]
    rw [countP_build_instructions, h0]
    simp [get_tip_instruction, is_tip_transfer_system_transfer]
  · intro profit hp
    unfold arb_tip_lamports
    rw [if_pos (by omega)]
    omega

/-- C8 witness: evaluation of the amended invariant at concrete inputs. -/
theorem bundle_tip_invariant_witness :
    nss_tip_lamports (F64.val (1 / 2)) ≤ 100000000 ∧
    bundle_tip_count 4 (nss_bundle [] 3 4 (F64.val (1 / 2))) = 1 ∧
    bundle_tip_count 4 (arb_bundle r_example 3 4 10) = 1 ∧
    0 < arb_tip_lamports 10 := by
  obtain ⟨h1, h2, h3, h4⟩ := bundle_tip_invariant 3 4
  refine ⟨h1 (F64.val (1 / 2)), h2 [] (F64.val (1 / 2)) rfl, h3 r_example 10 ?_, h4 10 (by norm_num)⟩
  decide

/-- Fee accumulation without wrap, with an explicit accumulator. -/
def fee_fold_plain (acc : Nat) (l : List RoutePlanStep) : Nat :=
  l.foldl
    (fun a r =>
      if r.swap_info.fee_mint = native_mint then a + r.swap_info.fee_amount else a) acc

/-- Fee accumulation with the u64 wrap, with an explicit accumulator. -/
def fee_fold_mod (acc : Nat) (l : List RoutePlanStep) : Nat :=
  l.foldl
    (fun a r =>
      if r.swap_info.fee_mint = native_mint then wrapU64 (a + r.swap_info.fee_amount)
      else a) acc

/-- Plain fee accumulation is monotone in the accumulator. -/
theorem fee_fold_plain_le : ∀ (l : List RoutePlanStep) (acc : Nat),
    acc ≤ fee_fold_plain acc l
  | [], acc => le_refl acc
  | r :: l, acc => by
    by_cases hm : r.swap_info.fee_mint = native_mint
    · calc acc ≤ acc + r.swap_info.fee_amount := Nat.le_add_right _ _
        _ ≤ fee_fold_plain (acc + r.swap_info.fee_amount) l := fee_fold_plain_le l _
        _ = fee_fold_plain acc (r :: l) := by simp [fee_fold_plain, hm]
    · calc acc ≤ fee_fold_plain acc l := fee_fold_plain_le l acc
        _ = fee_fold_plain acc (r :: l) := by simp [fee_fold_plain, hm]

/-- When the plain total stays below 2^64 no wrap ever fires, so the wrapped
and the plain accumulations agree. -/
theorem fee_fold_mod_eq : ∀ (l : List RoutePlanStep) (acc : Nat),
    fee_fold_plain acc l < 2 ^ 64 → fee_fold_mod acc l = fee_fold_plain acc l
  | [], acc, _ => rfl
  | r :: l, acc, h => by
    by_cases hm : r.swap_info.fee_mint = native_mint
    · have hp : fee_fold_plain acc (r :: l) = fee_fold_plain (acc + r.swap_info.fee_amount) l := by
        simp [fee_fold_plain, hm]
      have hstep : acc + r.swap_info.fee_amount < 2 ^ 64 := by
        have := fee_fold_plain_le l (acc + r.swap_info.fee_amount)
        omega
      have hw : wrapU64 (acc + r.swap_info.fee_amount) = acc + r.swap_info.fee_amount :=
        Nat.mod_eq_of_lt hstep
      have ih := fee_fold_mod_eq l (acc + r.swap_info.fee_amount) (by omega)
      calc fee_fold_mod acc (r :: l)
          = fee_fold_mod (wrapU64 (acc + r.swap_info.fee_amount)) l := by
            simp [fee_fold_mod, hm]
        _ = fee_fold_mod (acc + r.swap_info.fee_amount) l := by rw [hw]
        _ = fee_fold_plain (acc + r.swap_info.fee_amount) l := ih
        _ = fee_fold_plain acc (r :: l) := hp.symm
    · have hp : fee_fold_plain acc (r :: l) = fee_fold_plain acc l := by
        simp [fee_fold_plain, hm]
      have ih := fee_fold_mod_eq l acc (by omega)
      calc fee_fold_mod acc (r :: l) = fee_fold_mod acc l := by simp [fee_fold_mod, hm]
        _ = fee_fold_plain acc l := ih
        _ = fee_fold_plain acc (r :: l) := hp.symm

/-- The wrapped fee fold of the source agrees with the mathematical native
fee total whenever the latter fits in a u64. -/
theorem fee_amount_fold_eq (l : List RoutePlanStep) (h : native_fee_total l < 2 ^ 64) :
    fee_amount_fold l = native_fee_total l :=
  fee_fold_mod_eq l 0 h

/-- Evaluation of the partner-fee term: for a nonnegative partner fee whose
product with the input amount floors below 2^63 the saturating cast returns
precisely the floor of the product. -/
theorem partner_term_eq (amount_in : Nat) (pf : ℚ) (hpf : 0 ≤ pf)
    (hb : ⌊(amount_in : ℚ) * pf⌋ < 2 ^ 63) :
    ((F64.val (amount_in : ℚ)).mul (F64.val pf)).toI64 = ⌊(amount_in : ℚ) * pf⌋ := by
  rw [F64.mul]
  have h0 : (0 : ℚ) ≤ (amount_in : ℚ) * pf := by positivity
  have ht : ratTrunc ((amount_in : ℚ) * pf) = ⌊(amount_in : ℚ) * pf⌋ :=
    ratTrunc_eq_floor _ h0
  have hf0 : 0 ≤ ⌊(amount_in : ℚ) * pf⌋ := Int.floor_nonneg.mpr h0
  simp only [F64.toI64, ht]
  rw [if_neg (by omega), if_neg (by omega)]

/-- C1 (amended): for every pair of leg quotes delivered by the quote client
and every nonnegative partner fee, as long as the decayed sell output is
below 2^63 and the subtrahends together stay below 2^63 (so that no i64 cast
or subtraction wraps), caculate_profit returns exactly
sell output - input - native buy-leg fee total - floor(input * partner fee),
paired with the two decayed quotes; the fee total counts precisely the
buy-leg route hops whose fee mint is the native mint, and sell-leg fees are
never counted. -/
theorem caculate_profit_formula
    (quote : QuoteRequest → Except ArbError QuoteResponse)
    (amount_in : Nat) (token_out : Pubkey) (dexes : Nat)
    (buy_decay_env sell_decay_env : F64) (pf : ℚ)
    (qb qs : QuoteResponse)
    (hbuy : quote (buy_request amount_in native_mint token_out dexes) = .ok qb)
    (hsell : quote (sell_request (decayed_amount qb.out_amount (clamp_decay buy_decay_env))
        native_mint token_out dexes) = .ok qs)
    (hpf : 0 ≤ pf)
    (hsout : decayed_amount qs.out_amount (clamp_decay sell_decay_env) < 2 ^ 63)
    (hsum : (amount_in : Int) + native_fee_total qb.route_plan
        + ⌊(amount_in : ℚ) * pf⌋ < 2 ^ 63) :
    caculate_profit quote amount_in native_mint token_out dexes
        buy_decay_env sell_decay_env (F64.val pf)
      = .ok ((decayed_amount qs.out_amount (clamp_decay sell_decay_env) : Int)
              - amount_in - native_fee_total qb.route_plan - ⌊(amount_in : ℚ) * pf⌋,
             apply_decay qb (clamp_decay buy_decay_env),
             apply_decay qs (clamp_decay sell_decay_env)) := by
  have hfloor0 : 0 ≤ ⌊(amount_in : ℚ) * pf⌋ := Int.floor_nonneg.mpr (by positivity)
  have hamount : amount_in < 2 ^ 63 := by omega
  have hfee63 : native_fee_total qb.route_plan < 2 ^ 63 := by omega
  have hfee64 : native_fee_total qb.route_plan < 2 ^ 64 := by omega
  unfold caculate_profit
  rw [if_neg (fun hne => hne rfl)]
  simp only [hbuy, apply_decay, hsell]
  rw [fee_amount_fold_eq _ hfee64]
  rw [i64ofU64_eq_of_lt _ hsout, i64ofU64_eq_of_lt _ hamount, i64ofU64_eq_of_lt _ hfee63]
  rw [partner_term_eq amount_in pf hpf (by omega)]
  rw [wrapI64_eq_self ((decayed_amount qs.out_amount (clamp_decay sell_decay_env) : Int)
    - amount_in) (by omega) (by omega)]
  rw [wrapI64_eq_self ((decayed_amount qs.out_amount (clamp_decay sell_decay_env) : Int)
    - amount_in - native_fee_total qb.route_plan) (by omega) (by omega)]
  rw [wrapI64_eq_self _ (by omega) (by omega)]

/-- Buy-leg quote of the spec scenario: 1 sol in, 2000000 target units out,
with a native-denominated 5000-lamport route fee. -/
def quote_buy_example : QuoteResponse :=
  { input_mint := native_mint, in_amount := 1000000000, output_mint := 5,
    out_amount := 2000000, other_amount_threshold := 2000000, swap_mode := .exactIn,
    slippage_bps := 0, platform_fee := none, price_impact_pct := 0,
    route_plan := [⟨⟨7, native_mint, 5, 1000000000, 2000000, 5000, native_mint⟩, 100⟩],
    context_slot := none, time_taken := none }

/-- Sell-leg quote of the spec scenario: 1960000 target units in,
1010000000 lamports out, carrying a non-native route fee that the profit
computation must ignore. -/
def quote_sell_example : QuoteResponse :=
  { input_mint := 5, in_amount := 1960000, output_mint := native_mint,
    out_amount := 1010000000, other_amount_threshold := 1010000000, swap_mode := .exactIn,
    slippage_bps := 0, platform_fee := none, price_impact_pct := 0,
    route_plan := [⟨⟨8, 5, native_mint, 1960000, 1010000000, 3000, 5⟩, 100⟩],
    context_slot := none, time_taken := none }

/-- Quote client of the spec scenario, keyed on the request direction. -/
def quote_oracle_example : QuoteRequest → Except ArbError QuoteResponse :=
  fun req => if req.input_mint = native_mint then .ok quote_buy_example
    else .ok quote_sell_example

/-- Clamp keeps an in-range positive factor unchanged. -/
theorem clamp_decay_in_range (q : ℚ) (h0 : ¬q ≤ 0) (h1 : ¬1 < q) :
    clamp_decay (F64.val q) = F64.val q := by
  simp [clamp_decay, F64.le0, F64.gt1, h0, h1]

/-- C1 witness: the spec scenario, through the amended formula. With input
1000000000, buy output 2000000 decayed by 0.98 to 1960000, sell output
1010000000 decayed by 1.0, native fee total 5000 and partner fee 0.001, the
returned profit is 1010000000 - 1000000000 - 5000 - 1000000 = 8995000. -/
theorem caculate_profit_formula_witness :
    caculate_profit quote_oracle_example 1000000000 native_mint 5 Dex.ALL
        (F64.val (98 / 100)) (F64.val 1) (F64.val (1 / 1000))
      = .ok (8995000, apply_decay quote_buy_example (F64.val (98 / 100)),
             apply_decay quote_sell_example (F64.val 1)) := by
  have hclampb : clamp_decay (F64.val (98 / 100)) = F64.val (98 / 100) :=
    clamp_decay_in_range _ (by norm_num) (by norm_num)
  have hclamps : clamp_decay (F64.val 1) = F64.val 1 :=
    clamp_decay_in_range _ (by norm_num) (by norm_num)
  have hfee : native_fee_total quote_buy_example.route_plan = 5000 := by decide
  have hdecs : decayed_amount quote_sell_example.out_amount (clamp_decay (F64.val 1))
      = 1010000000 := by
    rw [hclamps]
    exact decayed_amount_one 1010000000 (by norm_num)
  have h := caculate_profit_formula quote_oracle_example 1000000000 5 Dex.ALL
    (F64.val (98 / 100)) (F64.val 1) (1 / 1000) quote_buy_example quote_sell_example
    rfl rfl (by norm_num)
    (by rw [hdecs]; norm_num)
    (by rw [hfee]; push_cast; norm_num)
  rw [h, hdecs, hfee, hclampb, hclamps]
  push_cast
  norm_num

/-- Sell-leg quote with a huge output amount, used to exhibit the i64 cast
wrap in the profit computation. -/
def quote_sell_big : QuoteResponse :=
  { quote_dummy with
    input_mint := 5
    output_mint := native_mint
    out_amount := 2 ^ 63
    other_amount_threshold := 0 }

/-- Quote client returning the huge sell quote. -/
def quote_oracle_big : QuoteRequest → Except ArbError QuoteResponse :=
  fun req => if req.input_mint = native_mint then .ok quote_dummy
    else .ok quote_sell_big

/-- Wrap behaviour of the profit computation: at a decayed sell output of
2^63 (with input, fees and partner fee all zero) the i64 cast in the source
wraps, so caculate_profit returns -2^63 instead of the value
2^63 - 0 - 0 - 0 given by the claimed formula. -/
theorem caculate_profit_wrap_eval :
    caculate_profit quote_oracle_big 0 native_mint 5 Dex.ALL
        (F64.val 1) (F64.val 1) (F64.val 0)
      = .ok (-(2 ^ 63), apply_decay quote_dummy (F64.val 1),
             apply_decay quote_sell_big (F64.val 1)) ∧
    (-(2 ^ 63) : Int)
      ≠ (decayed_amount quote_sell_big.out_amount (clamp_decay (F64.val 1)) : Int)
        - 0 - native_fee_total quote_dummy.route_plan - ⌊(0 : ℚ) * 0⌋ := by
  have hclamp1 : clamp_decay (F64.val 1) = F64.val 1 :=
    clamp_decay_in_range _ (by norm_num) (by norm_num)
  have hdec0 : decayed_amount quote_dummy.out_amount (F64.val 1) = 0 :=
    decayed_amount_one 0 (by norm_num)
  have hdecbig : decayed_amount quote_sell_big.out_amount (F64.val 1) = 2 ^ 63 :=
    decayed_amount_one (2 ^ 63) (by norm_num)
  constructor
  · have hterm : ((F64.val ((0 : Nat) : ℚ)).mul (F64.val 0)).toI64 = 0 := by
      rw [show ((0 : Nat) : ℚ) = 0 by norm_num, F64.mul, mul_zero]
      rw [show (F64.val 0).toI64 = ratTrunc 0 by
        simp [F64.toI64, ratTrunc_eq_floor 0 le_rfl]]
      simp [ratTrunc_eq_floor 0 le_rfl]
    unfold caculate_profit
    rw [if_neg (fun hne => hne rfl), hclamp1]
    simp only [show quote_oracle_big (buy_request 0 native_mint 5 Dex.ALL)
      = .ok quote_dummy from rfl, apply_decay]
    simp only [show ∀ x, quote_oracle_big (sell_request x native_mint 5 Dex.ALL)
      = .ok quote_sell_big from fun x => rfl]
    rw [hdecbig, hdec0]
    rw [show fee_amount_fold quote_dummy.route_plan = 0 from rfl]
    rw [hterm]
    rw [show i64ofU64 0 = 0 by simp [i64ofU64]]
    rw [show i64ofU64 (2 ^ 63) = -(2 ^ 63) by simp [i64ofU64]]
    rw [wrapI64_eq_self (-(2 ^ 63) - 0) (by omega) (by omega)]
    rw [wrapI64_eq_self (-(2 ^ 63) - 0 - 0) (by omega) (by omega)]
    rw [wrapI64_eq_self (-(2 ^ 63) - 0 - 0 - 0) (by omega) (by omega)]
    norm_num
  · rw [hclamp1, hdecbig]
    rw [show native_fee_total quote_dummy.route_plan = 0 from rfl]
    norm_num

/-- Direct evaluation of caculate_profit on the spec scenario (independent of
the amended formula theorem): the profit returned by the source computation
is 8995000. -/
theorem caculate_profit_scenario_eval :
    caculate_profit quote_oracle_example 1000000000 native_mint 5 Dex.ALL
        (F64.val (98 / 100)) (F64.val 1) (F64.val (1 / 1000))
      = .ok (8995000, apply_decay quote_buy_example (F64.val (98 / 100)),
             apply_decay quote_sell_example (F64.val 1)) := by
  have hclampb : clamp_decay (F64.val (98 / 100)) = F64.val (98 / 100) :=
    clamp_decay_in_range _ (by norm_num) (by norm_num)
  have hclamps : clamp_decay (F64.val 1) = F64.val 1 :=
    clamp_decay_in_range _ (by norm_num) (by norm_num)
  have hterm : ((F64.val ((1000000000 : Nat) : ℚ)).mul (F64.val (1 / 1000))).toI64
      = 1000000 := by
    rw [partner_term_eq 1000000000 (1 / 1000) (by norm_num) (by push_cast; norm_num)]
    push_cast
    norm_num
  unfold caculate_profit
  rw [if_neg (fun hne => hne rfl), hclampb, hclamps]
  simp only [show quote_oracle_example (buy_request 1000000000 native_mint 5 Dex.ALL)
    = .ok quote_buy_example from rfl, apply_decay]
  simp only [show ∀ x, quote_oracle_example (sell_request x native_mint 5 Dex.ALL)
    = .ok quote_sell_example from fun x => rfl]
  simp only [show quote_buy_example.out_amount = 2000000 from rfl,
    show quote_buy_example.other_amount_threshold = 2000000 from rfl,
    show quote_sell_example.out_amount = 1010000000 from rfl,
    show quote_sell_example.other_amount_threshold = 1010000000 from rfl]
  simp only [decayed_amount_eq 2000000 (98 / 100) 1960000 (by norm_num) (by norm_num),
    decayed_amount_one 1010000000 (by norm_num)]
  rw [show fee_amount_fold quote_buy_example.route_plan = 5000 from rfl]
  rw [hterm]
  norm_num [i64ofU64, wrapI64]

/-- C1 counterexample: the claim fails at its own quoted scenario, where the
source computation returns a profit of 8995000, not 3995000 (the spec value
3995000 corresponds to a decayed sell output of 1005000000, not the stated
1010000000); and at a decayed sell output of 2^63 the i64 cast wraps, so no
hypothesis-free formula of the claimed shape holds for every pair of
successful leg quotes. -/
theorem caculate_profit_claim_cex :
    (caculate_profit quote_oracle_example 1000000000 native_mint 5 Dex.ALL
        (F64.val (98 / 100)) (F64.val 1) (F64.val (1 / 1000))
      = .ok (8995000, apply_decay quote_buy_example (F64.val (98 / 100)),
             apply_decay quote_sell_example (F64.val 1)) ∧
     (8995000 : Int) ≠ 3995000) ∧
    (caculate_profit quote_oracle_big 0 native_mint 5 Dex.ALL
        (F64.val 1) (F64.val 1) (F64.val 0)
      = .ok (-(2 ^ 63), apply_decay quote_dummy (F64.val 1),
             apply_decay quote_sell_big (F64.val 1)) ∧
     (-(2 ^ 63) : Int)
       ≠ (decayed_amount quote_sell_big.out_amount (clamp_decay (F64.val 1)) : Int)
         - 0 - native_fee_total quote_dummy.route_plan - ⌊(0 : ℚ) * 0⌋) :=
  ⟨⟨caculate_profit_scenario_eval, by norm_num⟩, caculate_profit_wrap_eval⟩
